import Mathlib

/-!
Verification of the live-audio broadcast core: a shallow embedding of the
SFU resource manager (backend/src/signaling/mediasoupHandler.js), the
socket gateway join path (backend/src/signaling/socketGateway.js) and the
ScalingOrchestrator (scaling, cooldown, relay, drain and metrics
aggregation).  JavaScript Maps are embedded as association lists that keep
insertion order, exactly as a JS Map iterates; asynchronous engine and
cloud calls are embedded as explicit state passing, with engine-generated
ids drawn from a fresh-id counter.
-/

namespace LiveAudio

/-- Lookup in an insertion-ordered association list, as JS Map.get. -/
def alGet {K V : Type} [BEq K] (l : List (K × V)) (k : K) : Option V :=
  match l with
  | [] => none
  | p :: rest => if p.1 == k then some p.2 else alGet rest k

/-- Insert or replace in an insertion-ordered association list, as JS
Map.set: an existing key keeps its position, a new key is appended. -/
def alSet {K V : Type} [BEq K] (l : List (K × V)) (k : K) (v : V) : List (K × V) :=
  match l with
  | [] => [(k, v)]
  | p :: rest => if p.1 == k then (p.1, v) :: rest else p :: alSet rest k v

/-- Remove a key, as JS Map.delete (order of the rest is preserved). -/
def alDel {K V : Type} [BEq K] (l : List (K × V)) (k : K) : List (K × V) :=
  l.filter (fun p => ¬ p.1 == k)

theorem alSet_of_get_none {K V : Type} [BEq K] (l : List (K × V)) (k : K) (v : V)
    (h : alGet l k = none) : alSet l k v = l ++ [(k, v)] := by
  induction l with
  | nil => rfl
  | cons p rest ih =>
    unfold alGet at h
    unfold alSet
    by_cases hpk : (p.1 == k) = true
    · rw [if_pos hpk] at h
      exact absurd h (by simp)
    · rw [if_neg hpk] at h
      rw [if_neg hpk, ih h]
      simp

end LiveAudio

namespace Mediasoup

open LiveAudio

/-- A router as registered by MediasoupHandler: the engine-assigned id, the
broadcast it was created for, and the worker that owns it. -/
structure Router where
  routerId : Nat
  broadcastId : String
  workerIndex : Nat
deriving DecidableEq, Repr

/-- A WebRTC transport; broadcastId records the router it was created on
(the owning router in the JS object graph). -/
structure Transport where
  transportId : Nat
  broadcastId : String
deriving DecidableEq, Repr

structure Producer where
  producerId : Nat
  transportId : Nat
  kind : String
deriving DecidableEq, Repr

structure Consumer where
  consumerId : Nat
  transportId : Nat
  producerId : Nat
deriving DecidableEq, Repr

/-- The MediasoupHandler state: the four registries (JS Maps), the
round-robin worker counter, a fresh-id counter standing for engine id
generation, and openRouters, the engine-side set of routers that have been
created and not closed (a router overwritten in the routers Map without
close stays alive in the engine). -/
structure Handler where
  numWorkers : Nat
  routers : List (String × Router)
  transports : List (Nat × Transport)
  producers : List (Nat × Producer)
  consumers : List (Nat × Consumer)
  nextWorkerIndex : Nat
  nextId : Nat
  openRouters : List Router
deriving DecidableEq, Repr

/-- Errors thrown by the handler (Error strings in the JS source). -/
inductive MsError
  | transportNotFound
  | producerNotFound
  | cannotConsume
deriving DecidableEq, Repr

/-- getNextWorker: round-robin over the fixed pool (pool is nonempty after
initialize). -/
def getNextWorker (h : Handler) : Nat × Handler :=
  (h.nextWorkerIndex, { h with nextWorkerIndex := (h.nextWorkerIndex + 1) % h.numWorkers })

/-- createRouter(broadcastId): unconditionally asks the next worker for a
new router and overwrites the registry entry for broadcastId.  The JS
method never consults the existing entry. -/
def createRouter (h : Handler) (b : String) : Router × Handler :=
  let wh := getNextWorker h
  let r : Router := ⟨wh.2.nextId, b, wh.1⟩
  (r, { wh.2 with
          nextId := wh.2.nextId + 1,
          routers := alSet wh.2.routers b r,
          openRouters := wh.2.openRouters ++ [r] })

def getRouter (h : Handler) (b : String) : Option Router :=
  alGet h.routers b

/-- deleteRouter: closes the registered router (removing it from the
engine-side open set) and drops the registry entry. -/
def deleteRouter (h : Handler) (b : String) : Handler :=
  match getRouter h b with
  | none => h
  | some r =>
    { h with
        routers := alDel h.routers b,
        openRouters := h.openRouters.filter (fun r2 => ¬ r2.routerId == r.routerId) }

/-- createWebRtcTransport(broadcastId, type): reuses the registered router
or lazily creates one, then registers a new transport on it.  The type
argument is accepted and ignored, as in the JS source. -/
def createWebRtcTransport (h : Handler) (b : String) (ty : String) : Transport × Handler :=
  let _ := ty
  let rh : Router × Handler :=
    match getRouter h b with
    | some r => (r, h)
    | none => createRouter h b
  let t : Transport := ⟨rh.2.nextId, rh.1.broadcastId⟩
  (t, { rh.2 with
          nextId := rh.2.nextId + 1,
          transports := alSet rh.2.transports t.transportId t })

/-- createProducer(transportId, kind, ...): validates the transport and
registers a producer on it. -/
def createProducer (h : Handler) (tid : Nat) (kind : String) :
    Except MsError (Producer × Handler) :=
  match alGet h.transports tid with
  | none => .error .transportNotFound
  | some _ =>
    let p : Producer := ⟨h.nextId, tid, kind⟩
    .ok (p, { h with
                nextId := h.nextId + 1,
                producers := alSet h.producers p.producerId p })

/-- createConsumer(transportId, producerId, rtpCapabilities): validates
that the transport and producer are registered, then searches EVERY
registered router, in insertion order, for one whose canConsume
compatibility query accepts the producer; the router found is not required
to own the referenced transport.  The engine query is the opaque parameter
cc, indexed by routerId and producerId. -/
def createConsumer (cc : Nat → Nat → Bool) (h : Handler) (tid pid : Nat) :
    Except MsError (Consumer × Handler) :=
  match alGet h.transports tid with
  | none => .error .transportNotFound
  | some _ =>
    match alGet h.producers pid with
    | none => .error .producerNotFound
    | some _ =>
      match h.routers.find? (fun p => cc p.2.routerId pid) with
      | none => .error .cannotConsume
      | some _ =>
        let c : Consumer := ⟨h.nextId, tid, pid⟩
        .ok (c, { h with
                    nextId := h.nextId + 1,
                    consumers := alSet h.consumers c.consumerId c })

/-- closeTransport(transportId): closes the transport and, through the
transportclose and producerclose handlers registered in createProducer and
createConsumer, cascades to the producers on that transport and to every
consumer on that transport or fed by one of those producers. -/
def closeTransport (h : Handler) (tid : Nat) : Handler :=
  match alGet h.transports tid with
  | none => h
  | some _ =>
    let deadProducers := h.producers.filter (fun p => p.2.transportId == tid)
    { h with
        transports := alDel h.transports tid,
        producers := h.producers.filter (fun p => ¬ p.2.transportId == tid),
        consumers := h.consumers.filter (fun c =>
          ¬ (c.2.transportId == tid ∨ deadProducers.any (fun p => p.1 == c.2.producerId))) }

def getTransport (h : Handler) (tid : Nat) : Option Transport :=
  alGet h.transports tid

def getProducer (h : Handler) (pid : Nat) : Option Producer :=
  alGet h.producers pid

/-- cleanupBroadcast(broadcastId): when a router is registered for the
broadcast, collects the ids of ALL transports in the registry (the loop
iterates the whole transports Map with no owner filter), closes each, then
deletes the router. -/
def cleanupBroadcast (h : Handler) (b : String) : Handler :=
  match getRouter h b with
  | none => h
  | some _ =>
    let ids := h.transports.map (fun p => p.1)
    deleteRouter (ids.foldl closeTransport h) b

end Mediasoup

namespace Mediasoup

open LiveAudio

/-- An empty handler over a two-worker pool, as after initialize with
MEDIASOUP_NUM_WORKERS=2. -/
def handler0 : Handler := ⟨2, [], [], [], [], 0, 0, []⟩

/-- Handler after one createRouter for broadcast b. -/
def handlerR1 : Handler := (createRouter handler0 "b").2

/-- C1 counterexample: with a router already registered for broadcast b, a
second createRouter for b does not return the existing router; it
allocates a fresh one on the next worker, after which two live routers for
b exist in the engine. -/
theorem createRouter_reallocates_counterexample :
    (createRouter handlerR1 "b").1 ≠ (createRouter handler0 "b").1
    ∧ (createRouter handlerR1 "b").2.openRouters.length = 2
    ∧ ∀ r ∈ (createRouter handlerR1 "b").2.openRouters, r.broadcastId = "b" := by
  decide

/-- C1 (amended): router creation is idempotent one level up, in
createWebRtcTransport: when a router is already registered for the
broadcast it is reused, no router is allocated and the registry entry is
unchanged; only when none is registered does the call allocate exactly one
router. -/
theorem createWebRtcTransport_router_idempotent (h : Handler) (b : String) (r : Router)
    (hr : getRouter h b = some r) :
    (createWebRtcTransport h b "send").2.openRouters = h.openRouters
    ∧ getRouter (createWebRtcTransport h b "send").2 b = some r
    ∧ ∀ h2, getRouter h2 b = none →
        (createWebRtcTransport h2 b "send").2.openRouters.length = h2.openRouters.length + 1 := by
  have hr2 : alGet h.routers b = some r := hr
  refine ⟨?_, ?_, ?_⟩
  · simp [createWebRtcTransport, getRouter, hr2]
  · simp [createWebRtcTransport, getRouter, hr2]
  · intro h2 hn
    have hn2 : alGet h2.routers b = none := hn
    simp [createWebRtcTransport, getRouter, hn2, createRouter, getNextWorker]

/-- Witness for the C1 amended theorem at a concrete handler that already
holds a router for b. -/
theorem createWebRtcTransport_router_idempotent_witness :
    (createWebRtcTransport handlerR1 "b" "send").2.openRouters = handlerR1.openRouters
    ∧ getRouter (createWebRtcTransport handlerR1 "b" "send").2 "b" = some ⟨0, "b", 0⟩ :=
  ⟨(createWebRtcTransport_router_idempotent handlerR1 "b" ⟨0, "b", 0⟩ (by decide)).1,
   (createWebRtcTransport_router_idempotent handlerR1 "b" ⟨0, "b", 0⟩ (by decide)).2.1⟩

/-- Handler with broadcast b1 (router 0, transport 1) and broadcast b2
(router 2, transport 3). -/
def handlerB1 : Handler := (createWebRtcTransport handler0 "b1" "send").2

def handlerB2 : Handler := (createWebRtcTransport handlerB1 "b2" "recv").2

def handlerClean : Handler := cleanupBroadcast handlerB2 "b1"

/-- C4 (code bug): cleanupBroadcast(b1) also closes transport 3, which is
owned by the router of the unrelated broadcast b2 (the JS loop pushes
every transportId despite the comment restricting it to this router), so
the frame condition fails: after the cleanup pass no transport at all
remains registered, while the b2 router survives without its transport. -/
theorem cleanupBroadcast_closes_foreign_transports :
    getTransport handlerB2 3 = some ⟨3, "b2"⟩
    ∧ getTransport handlerClean 3 = none
    ∧ getRouter handlerClean "b2" = some ⟨2, "b2", 1⟩
    ∧ handlerClean.transports = [] := by
  decide

/-- Handler extending handlerB2 with producer 4 on transport 3 (the b2
side). -/
def handlerProd : Handler :=
  match createProducer handlerB2 3 "audio" with
  | .ok ph => ph.2
  | .error _ => handlerB2

/-- Compatibility query under which producer 4 is reachable only from
router 2, the router of broadcast b2. -/
def ccCross : Nat → Nat → Bool := fun rid pid => rid == 2 && pid == 4

/-- C9 counterexample: transport 1 belongs to broadcast b1 (router 0), and
producer 4 is consumable only from the b2 router (ccCross rejects router
0); createConsumer nevertheless succeeds and creates consumer 5 on
transport 1, because the JS code scans every router for canConsume instead
of checking the router owning the referenced transport. -/
theorem createConsumer_cross_router_counterexample :
    (createConsumer ccCross handlerProd 1 4).toOption.map Prod.fst = some ⟨5, 1, 4⟩
    ∧ (getTransport handlerProd 1).map Transport.broadcastId = some "b1"
    ∧ getRouter handlerProd "b1" = some ⟨0, "b1", 0⟩
    ∧ ccCross 0 4 = false := by
  decide

/-- C9 (amended): createConsumer fails with the not-found errors exactly
when the referenced transport or producer is unregistered, and otherwise
creates a consumer for the given transport and producer exactly when SOME
registered router (not necessarily the one owning the transport) passes
the canConsume compatibility query. -/
theorem createConsumer_checks (cc : Nat → Nat → Bool) (h : Handler) (tid pid : Nat) :
    ((createConsumer cc h tid pid = .error .transportNotFound) ↔ alGet h.transports tid = none)
    ∧ ((createConsumer cc h tid pid = .error .producerNotFound)
        ↔ ((alGet h.transports tid).isSome ∧ alGet h.producers pid = none))
    ∧ ((∃ c h2, createConsumer cc h tid pid = .ok (c, h2)
          ∧ c.transportId = tid ∧ c.producerId = pid)
        ↔ ((alGet h.transports tid).isSome ∧ (alGet h.producers pid).isSome
            ∧ h.routers.any (fun p => cc p.2.routerId pid) = true)) := by
  cases htr : alGet h.transports tid with
  | none => simp [createConsumer, htr]
  | some t =>
    cases hpr : alGet h.producers pid with
    | none => simp [createConsumer, htr, hpr]
    | some p =>
      cases hf : h.routers.find? (fun q => cc q.2.routerId pid) with
      | none =>
        have hany : h.routers.any (fun q => cc q.2.routerId pid) = false := by
          rw [List.find?_eq_none] at hf
          simp only [List.any_eq_false]
          exact fun x hx => by simpa using hf x hx
        simp [createConsumer, htr, hpr, hf, hany]
      | some q =>
        have hany : h.routers.any (fun q => cc q.2.routerId pid) = true := by
          have hq := List.find?_some hf
          have hmem := List.mem_of_find?_eq_some hf
          exact List.any_eq_true.mpr ⟨q, hmem, hq⟩
        simp only [createConsumer, htr, hpr, hf]
        refine ⟨by simp, by simp, ?_⟩
        simp [hany]

end Mediasoup

namespace Gateway

open LiveAudio

/-- The broadcast row fields that handleJoin reads. -/
structure Broadcast where
  id : String
  hostId : Nat
  status : String
deriving DecidableEq, Repr

/-- A Session row as created by handleJoin. -/
structure SessionRec where
  sessionId : Nat
  broadcastId : String
  userId : Nat
  role : String
  socketId : String
  status : String
deriving DecidableEq, Repr

/-- The in-memory activeSessions entry (socketId to session info). -/
structure SessionInfo where
  sessionId : Nat
  broadcastId : String
  userId : Nat
  role : String
deriving DecidableEq, Repr

/-- SocketGateway state: the broadcasts and sessions tables (the database
boundary), the activeSessions Map, the per-broadcast presence sets (the
redis sadd boundary) and a fresh-id counter for Session.create. -/
structure GatewayState where
  broadcasts : List (String × Broadcast)
  sessions : List SessionRec
  activeSessions : List (String × SessionInfo)
  presence : List (String × List Nat)
  nextSessionId : Nat
deriving DecidableEq, Repr

/-- What handleJoin emits back to the joining socket. -/
inductive JoinOutcome
  | errorMsg (msg : String)
  | joined (sessionId : Nat) (role : String) (listenerCount : Nat)
deriving DecidableEq, Repr

/-- Sessions counted for the listener count: connected sessions of the
broadcast (Session.count where broadcastId, status connected). -/
def connectedCount (sessions : List SessionRec) (b : String) : Nat :=
  (sessions.filter (fun s => s.broadcastId == b && s.status == "connected")).length

def presAdd (l : List (String × List Nat)) (b : String) (u : Nat) : List (String × List Nat) :=
  match alGet l b with
  | none => l ++ [(b, [u])]
  | some s => alSet l b (if s.contains u then s else s ++ [u])

/-- handleJoin: missing broadcast and ended broadcast produce error events;
otherwise the effective role is host exactly when the joining userId
equals the hostId of the broadcast, and a session row is created
unconditionally, with no check against an existing connected host
session. -/
def handleJoin (st : GatewayState) (socketId : String) (userId : Nat) (broadcastId : String) :
    JoinOutcome × GatewayState :=
  match alGet st.broadcasts broadcastId with
  | none => (.errorMsg "Broadcast not found", st)
  | some b =>
    if b.status == "ended" then (.errorMsg "Broadcast has ended", st)
    else
      let role := if b.hostId == userId then "host" else "listener"
      let sess : SessionRec := ⟨st.nextSessionId, broadcastId, userId, role, socketId, "connected"⟩
      let sessions := st.sessions ++ [sess]
      (.joined sess.sessionId role (connectedCount sessions broadcastId),
       { st with
           sessions := sessions,
           activeSessions :=
             alSet st.activeSessions socketId ⟨sess.sessionId, broadcastId, userId, role⟩,
           presence := presAdd st.presence broadcastId userId,
           nextSessionId := st.nextSessionId + 1 })

/-- Connected host-role sessions of a broadcast. -/
def hostSessionCount (st : GatewayState) (b : String) : Nat :=
  (st.sessions.filter (fun s =>
    s.broadcastId == b && s.role == "host" && s.status == "connected")).length

/-- A live broadcast X hosted by user 1, with no sessions yet. -/
def gw0 : GatewayState := ⟨[("X", ⟨"X", 1, "live"⟩)], [], [], [], 0⟩

def gwJoin1 : JoinOutcome × GatewayState := handleJoin gw0 "s1" 1 "X"

def gwJoin2 : JoinOutcome × GatewayState := handleJoin gwJoin1.2 "s2" 1 "X"

/-- C5 counterexample: the host (user 1) joins broadcast X twice, from two
sockets, while the first host session is still connected; the second join
is not rejected as a conflict but succeeds with role host, leaving two
connected host-role sessions for X. -/
theorem second_host_join_accepted_counterexample :
    gwJoin1.1 = .joined 0 "host" 1
    ∧ gwJoin2.1 = .joined 1 "host" 2
    ∧ hostSessionCount gwJoin2.2 "X" = 2 := by
  decide

/-- C5 (amended): for an existing, non-ended broadcast the effective role
is host exactly when the userId equals the hostId of the broadcast, and
the join always succeeds and appends a fresh connected session row,
regardless of any host session already connected (no Conflict rejection
exists). -/
theorem handleJoin_role_and_accept (st : GatewayState) (sid : String) (uid : Nat) (b : String)
    (bc : Broadcast) (h1 : alGet st.broadcasts b = some bc)
    (h2 : (bc.status == "ended") = false) :
    (handleJoin st sid uid b).1
      = .joined st.nextSessionId (if bc.hostId == uid then "host" else "listener")
          (connectedCount ((handleJoin st sid uid b).2.sessions) b)
    ∧ (handleJoin st sid uid b).2.sessions
      = st.sessions
          ++ [⟨st.nextSessionId, b, uid, if bc.hostId == uid then "host" else "listener",
               sid, "connected"⟩] := by
  constructor
  · simp [handleJoin, h1, h2]
  · simp [handleJoin, h1, h2]

/-- Witness for the C5 amended theorem: a listener join into the concrete
state gw0. -/
theorem handleJoin_role_and_accept_witness :
    (handleJoin gw0 "s9" 2 "X").1
      = .joined 0 "listener" (connectedCount ((handleJoin gw0 "s9" 2 "X").2.sessions) "X")
    ∧ (handleJoin gw0 "s9" 2 "X").2.sessions
      = [⟨0, "X", 2, "listener", "s9", "connected"⟩] :=
  handleJoin_role_and_accept gw0 "s9" 2 "X" ⟨"X", 1, "live"⟩ (by decide) (by decide)

end Gateway

namespace Scaling

open LiveAudio

/-- A per-instance metrics snapshot as stored by processMetrics: the load
fields may be absent on the published message (Option), the timestamp is
stamped by the orchestrator on receipt. -/
structure Snapshot where
  listenerCount : Option Nat
  bandwidth : Option Nat
  cpu : Option Nat
  memory : Option Nat
  timestamp : Nat
deriving DecidableEq, Repr

/-- The scaling options of this.config.scaling that the scale and relay
paths read. -/
structure ScalingConfig where
  minInstances : Nat
  maxInstances : Nat
  targetListenersPerInstance : Nat
  cooldownPeriod : Nat
  regions : List String
deriving DecidableEq, Repr

inductive EventType
  | up
  | down
deriving DecidableEq, Repr

/-- An entry of this.scalingHistory. -/
structure ScalingEvent where
  type : EventType
  timestamp : Nat
  magnitude : Nat
deriving DecidableEq, Repr

/-- A regional relay registered in this.relayNodes. -/
structure RelayNode where
  id : Nat
  broadcastId : String
  region : String
  createdAt : Nat
  listenerCount : Nat
deriving DecidableEq, Repr

/-- Calls issued to the drain and cloud-provisioning boundary, in order.
drainMark ids stands for the completed drainInstances call on ids (mark
draining, publish the control message, poll until drained or timeout);
terminate ids for terminateECSInstances; launch n for the
scaleECSService or scaleKubernetesDeployment call adding n instances. -/
inductive OrchEvent
  | drainMark (ids : List String)
  | terminate (ids : List String)
  | launch (n : Nat)
deriving DecidableEq, Repr

/-- ScalingOrchestrator state: running instance ids (the keys of
this.instances, in insertion order), the metrics store, the relay
registry with a fresh-id counter for cloud-assigned relay handles, the
shared cooldown timestamp and the scaling log, plus the ordered trace of
boundary calls. -/
structure OrchState where
  instances : List String
  metrics : List (String × Snapshot)
  relayNodes : List (Nat × RelayNode)
  nextRelayId : Nat
  lastScaleAction : Nat
  scalingHistory : List ScalingEvent
  trace : List OrchEvent
deriving DecidableEq, Repr

/-- Math.ceil(a / b) on naturals (b positive in every recognized config). -/
def ceilDiv (a b : Nat) : Nat := (a + b - 1) / b

/-- processMetrics: last-write-wins store of the snapshot under the
instance id, stamped with the arrival time. -/
def processMetrics (st : OrchState) (instanceId : String) (m : Snapshot) (now : Nat) :
    OrchState :=
  { st with metrics := alSet st.metrics instanceId { m with timestamp := now } }

/-- Fresh instance name for a launched instance (cloud boundary handles
are opaque; only distinctness within one launch call matters). -/
def instName (now i : Nat) : String :=
  "inst-" ++ toString now ++ "-" ++ toString i

/-- The instancesToAdd computation of scaleUp: min(instancesNeeded -
current, maxInstances - current) with instancesNeeded =
ceil(targetLoad / targetListenersPerInstance). -/
def instancesToAdd (cfg : ScalingConfig) (st : OrchState) (targetLoad : Nat) : Int :=
  min ((ceilDiv targetLoad cfg.targetListenersPerInstance : Int) - (st.instances.length : Int))
    ((cfg.maxInstances : Int) - (st.instances.length : Int))

/-- scaleUp(broadcastId, targetLoad): inside the cooldown window the call
returns with no effect; otherwise, when instancesToAdd is positive, that
many instances are launched (the provisioning call is embedded as
appending that many fresh ids, per the launchInstance contract of the
cloud boundary), the shared cooldown timestamp is set and the action is
logged. -/
def scaleUp (cfg : ScalingConfig) (st : OrchState) (now targetLoad : Nat) : OrchState :=
  if now - st.lastScaleAction < cfg.cooldownPeriod then st
  else
    if instancesToAdd cfg st targetLoad ≤ 0 then st
    else
      let k := (instancesToAdd cfg st targetLoad).toNat
      { st with
          instances := st.instances ++ (List.range k).map (fun i => instName now i),
          lastScaleAction := now,
          scalingHistory := st.scalingHistory ++ [⟨.up, now, k⟩],
          trace := st.trace ++ [.launch k] }

/-- The listener count a stored snapshot contributes in the scale-down
victim ordering: (metrics.get(id) and its listenerCount) or 0. -/
def listenerLoad (metrics : List (String × Snapshot)) (i : String) : Nat :=
  match alGet metrics i with
  | some m => m.listenerCount.getD 0
  | none => 0

def insertByLoad (metrics : List (String × Snapshot)) (i : String) :
    List String → List String
  | [] => [i]
  | j :: rest =>
    if listenerLoad metrics i ≤ listenerLoad metrics j then i :: j :: rest
    else j :: insertByLoad metrics i rest

/-- Stable ascending sort of the instances by current listener load, as
the JS comparator sort (least loaded first). -/
def sortByLoad (metrics : List (String × Snapshot)) (l : List String) : List String :=
  l.foldr (insertByLoad metrics) []

/-- Sum of listenerCount over all stored snapshots, as the reduce in
scaleDown; the sum has no default for a missing field, so a snapshot
without listenerCount poisons it (NaN in JS), embedded as none. -/
def totalLoadRaw (metrics : List (String × Snapshot)) : Option Nat :=
  metrics.foldl
    (fun s m =>
      match s, m.2.listenerCount with
      | some a, some b => some (a + b)
      | _, _ => none)
    (some 0)

/-- The instancesToRemove computation of scaleDown: Math.max(current -
instancesNeeded, current - minInstances), with instancesNeeded =
ceil(totalLoad / targetListenersPerInstance). -/
def instancesToRemove (cfg : ScalingConfig) (st : OrchState) (totalLoad : Nat) : Int :=
  max ((st.instances.length : Int) - (ceilDiv totalLoad cfg.targetListenersPerInstance : Int))
    ((st.instances.length : Int) - (cfg.minInstances : Int))

/-- scaleDown(broadcastId): inside the cooldown window the call returns
with no effect.  Otherwise, when instancesToRemove is positive, the
instancesToRemove least-loaded instances are drained and then terminated,
the shared cooldown timestamp is set and the action is logged.  When the
load sum is poisoned by a snapshot without listenerCount (NaN), every
comparison on it is false and slice(0, NaN) is empty, so the call drains
and terminates nothing yet still stamps the cooldown and logs. -/
def scaleDown (cfg : ScalingConfig) (st : OrchState) (now : Nat) : OrchState :=
  if now - st.lastScaleAction < cfg.cooldownPeriod then st
  else
    match totalLoadRaw st.metrics with
    | none =>
      { st with
          lastScaleAction := now,
          scalingHistory := st.scalingHistory ++ [⟨.down, now, 0⟩],
          trace := st.trace ++ [.drainMark [], .terminate []] }
    | some totalLoad =>
      if instancesToRemove cfg st totalLoad ≤ 0 then st
      else
        let victims :=
          (sortByLoad st.metrics st.instances).take (instancesToRemove cfg st totalLoad).toNat
        { st with
            instances := st.instances.filter (fun i => ¬ victims.contains i),
            lastScaleAction := now,
            scalingHistory := st.scalingHistory ++ [⟨.down, now, victims.length⟩],
            trace := st.trace ++ [.drainMark victims, .terminate victims] }

end Scaling

namespace Scaling

open LiveAudio

/-- The drain poll interval (the 5000 ms setTimeout in drainInstances). -/
def drainPollMs : Nat := 5000

/-- The hard drain budget (maxDrainTime = 60000 in drainInstances). -/
def maxDrainTime : Nat := 60000

/-- The all-drained test of one poll: an instance blocks draining only
when its stored snapshot is present with listenerCount > 0 (a missing
snapshot, or a snapshot without listenerCount, counts as drained). -/
def allDrained (metrics : List (String × Snapshot)) (ids : List String) : Bool :=
  ids.all (fun i =>
    match alGet metrics i with
    | some m => m.listenerCount.getD 0 == 0
    | none => true)

/-- The polling loop of drainInstances: at elapsed time t, exit on the
time budget, otherwise return early when all listed instances are
drained, otherwise sleep one poll interval.  The metrics store evolves
concurrently (processMetrics updates it), embedded as the environment
function env from elapsed time to the store contents.  The result is the
elapsed time at which the call returns. -/
def drainLoopAux (env : Nat → List (String × Snapshot)) (ids : List String) :
    Nat → Nat → Nat
  | 0, t => t
  | fuel + 1, t =>
    if maxDrainTime ≤ t then t
    else if allDrained (env t) ids then t
    else drainLoopAux env ids fuel (t + drainPollMs)

/-- Elapsed time at which drainInstances(ids) returns, counted from its
start; the fuel covers every poll inside the 60 s budget. -/
def drainReturnTime (env : Nat → List (String × Snapshot)) (ids : List String) : Nat :=
  drainLoopAux env ids (maxDrainTime / drainPollMs + 1) 0

theorem drainLoopAux_le (env : Nat → List (String × Snapshot)) (ids : List String) :
    ∀ fuel t, drainPollMs ∣ t → t ≤ maxDrainTime →
      maxDrainTime ≤ t + drainPollMs * fuel →
      drainLoopAux env ids fuel t ≤ maxDrainTime := by
  intro fuel
  induction fuel with
  | zero => intro t _ ht _; simpa [drainLoopAux] using ht
  | succ f ih =>
    intro t hdvd ht hbud
    unfold drainLoopAux
    by_cases h1 : maxDrainTime ≤ t
    · rw [if_pos h1]; exact ht
    · rw [if_neg h1]
      by_cases h2 : allDrained (env t) ids = true
      · rw [if_pos h2]; exact ht
      · rw [if_neg h2]
        obtain ⟨c, rfl⟩ := hdvd
        refine ih _ ⟨c + 1, by ring⟩ ?_ ?_
        · have hc : c ≤ 11 := by
            by_contra hc
            have : 12 ≤ c := by omega
            have : drainPollMs * 12 ≤ drainPollMs * c := Nat.mul_le_mul_left _ this
            simp [drainPollMs, maxDrainTime] at h1 this
            omega
          simp only [drainPollMs, maxDrainTime] at *
          omega
        · have := hbud
          simp only [Nat.mul_succ] at *
          omega

theorem drainLoopAux_first (env : Nat → List (String × Snapshot)) (ids : List String) :
    ∀ k fuel t, k < fuel → t + drainPollMs * k < maxDrainTime →
      (∀ j, j < k → allDrained (env (t + drainPollMs * j)) ids = false) →
      allDrained (env (t + drainPollMs * k)) ids = true →
      drainLoopAux env ids fuel t = t + drainPollMs * k := by
  intro k
  induction k with
  | zero =>
    intro fuel t hfuel hlt _ hnow
    match fuel, hfuel with
    | f + 1, _ =>
      unfold drainLoopAux
      rw [if_neg (by omega), if_pos (by simpa using hnow)]
      simp
  | succ k ih =>
    intro fuel t hfuel hlt hbefore hnow
    match fuel, hfuel with
    | f + 1, hfuel =>
      unfold drainLoopAux
      have hne : maxDrainTime ≤ t → False := by
        intro h
        have : drainPollMs * (k + 1) ≥ 0 := Nat.zero_le _
        omega
      rw [if_neg hne]
      have h0 : allDrained (env t) ids = false := by
        have := hbefore 0 (Nat.succ_pos k)
        simpa using this
      rw [if_neg (by simp [h0])]
      have harith : ∀ j : Nat, t + drainPollMs + drainPollMs * j = t + drainPollMs * (j + 1) := by
        intro j; ring
      refine Eq.trans (ih f (t + drainPollMs) (by omega) ?_ ?_ ?_) ?_
      · rw [harith k]; exact hlt
      · intro j hj
        rw [harith j]
        exact hbefore (j + 1) (by omega)
      · rw [harith k]; exact hnow
      · rw [harith k]

/-- C8: drainInstances (a) returns no later than maxDrainTime after it
starts, for every evolution of the metrics store; (b) returns at the first
poll at which every listed instance has listener count zero, when that
happens within the budget; and (c) inside scaleDown the termination call
is issued only after the drain call on the same victim list has returned
(the boundary trace appends drain immediately followed by terminate, or
the call leaves the state untouched). -/
theorem drainInstances_bounded_and_ordered (env : Nat → List (String × Snapshot))
    (ids : List String) :
    drainReturnTime env ids ≤ maxDrainTime
    ∧ (∀ k, k < 12 →
        (∀ j, j < k → allDrained (env (drainPollMs * j)) ids = false) →
        allDrained (env (drainPollMs * k)) ids = true →
        drainReturnTime env ids = drainPollMs * k)
    ∧ (∀ cfg st now, scaleDown cfg st now = st
        ∨ ∃ l, (scaleDown cfg st now).trace
            = st.trace ++ [OrchEvent.drainMark l, OrchEvent.terminate l]) := by
  refine ⟨?_, ?_, ?_⟩
  · exact drainLoopAux_le env ids 13 0 ⟨0, rfl⟩ (by simp [maxDrainTime])
      (by simp [drainPollMs, maxDrainTime])
  · intro k hk hbefore hnow
    have := drainLoopAux_first env ids k 13 0 (by omega)
      (by simp only [drainPollMs, maxDrainTime] at *; omega)
      (by simpa using hbefore) (by simpa using hnow)
    simpa using this
  · intro cfg st now
    unfold scaleDown
    by_cases h1 : now - st.lastScaleAction < cfg.cooldownPeriod
    · rw [if_pos h1]; exact Or.inl rfl
    · rw [if_neg h1]
      split
      · exact Or.inr ⟨[], rfl⟩
      · split
        · exact Or.inl rfl
        · exact Or.inr ⟨_, rfl⟩

/-- Environment for the C8 witness: instance i1 reports 3 listeners for
the first two polls and 0 from 10 s on. -/
def envW : Nat → List (String × Snapshot) := fun t =>
  if t < 10000 then [("i1", ⟨some 3, some 0, some 0, some 0, t⟩)]
  else [("i1", ⟨some 0, some 0, some 0, some 0, t⟩)]

/-- Witness for C8: with envW the drain of i1 returns at exactly 10 s,
within the 60 s budget. -/
theorem drainInstances_bounded_and_ordered_witness :
    drainReturnTime envW ["i1"] = 10000 ∧ drainReturnTime envW ["i1"] ≤ maxDrainTime :=
  ⟨(drainInstances_bounded_and_ordered envW ["i1"]).2.1 2 (by decide) (by decide) (by decide),
   (drainInstances_bounded_and_ordered envW ["i1"]).1⟩

end Scaling

namespace Scaling

open LiveAudio

/-- Config as shipped: minInstances 1, maxInstances 10,
targetListenersPerInstance 50, cooldownPeriod 300000 ms. -/
def cfg0 : ScalingConfig := ⟨1, 10, 50, 300000, ["us-east-1", "eu-west-1"]⟩

/-- Three idle instances, each reporting zero listeners, outside the
cooldown window. -/
def stIdle3 : OrchState :=
  ⟨["i1", "i2", "i3"],
   [("i1", ⟨some 0, some 5, some 10, some 10, 500⟩),
    ("i2", ⟨some 0, some 5, some 10, some 10, 500⟩),
    ("i3", ⟨some 0, some 5, some 10, some 10, 500⟩)],
   [], 0, 0, [], []⟩

/-- C2 (code bug): with three running instances, minInstances = 1 and zero
reported load, scaleDown computes instancesToRemove = Math.max(3 - 0,
3 - 1) = 3 and terminates all three instances, leaving 0 running, below
minInstances; at most current - minInstances = 2 were allowed. -/
theorem scaleDown_drops_below_minInstances :
    (scaleDown cfg0 stIdle3 1000000).instances.length = 0
    ∧ cfg0.minInstances = 1
    ∧ stIdle3.instances.length = 3
    ∧ instancesToRemove cfg0 stIdle3 0 = 3 := by
  decide

theorem scaleUp_cooldown_noop (cfg : ScalingConfig) (st : OrchState) (now targetLoad : Nat)
    (h : now - st.lastScaleAction < cfg.cooldownPeriod) :
    scaleUp cfg st now targetLoad = st := by
  unfold scaleUp
  rw [if_pos h]

theorem scaleDown_cooldown_noop (cfg : ScalingConfig) (st : OrchState) (now : Nat)
    (h : now - st.lastScaleAction < cfg.cooldownPeriod) :
    scaleDown cfg st now = st := by
  unfold scaleDown
  rw [if_pos h]

/-- A request arriving on the orchestrator:scaling channel (or from the
auto-scaling timer): a scale-up with its target load, or a scale-down,
each at its arrival time. -/
inductive ScaleReq
  | up (now targetLoad : Nat)
  | down (now : Nat)
deriving DecidableEq, Repr

/-- Sequential processing of scaling requests (the event-driven core
handles them one at a time). -/
def runScaling (cfg : ScalingConfig) (st : OrchState) : List ScaleReq → OrchState
  | [] => st
  | .up n l :: rest => runScaling cfg (scaleUp cfg st n l) rest
  | .down n :: rest => runScaling cfg (scaleDown cfg st n) rest

/-- Internal invariant tying the scaling log to the shared cooldown
timestamp: consecutive logged actions are at least one cooldown apart and
no logged action is later than lastScaleAction. -/
def histOK (cfg : ScalingConfig) (st : OrchState) : Prop :=
  List.Chain' (fun a b => a.timestamp + cfg.cooldownPeriod ≤ b.timestamp) st.scalingHistory
  ∧ ∀ e ∈ st.scalingHistory, e.timestamp ≤ st.lastScaleAction

theorem histOK_extend (cfg : ScalingConfig) (st : OrchState) (now : Nat) (e : ScalingEvent)
    (hcd : 0 < cfg.cooldownPeriod) (h : histOK cfg st)
    (hge : ¬ now - st.lastScaleAction < cfg.cooldownPeriod) (het : e.timestamp = now) :
    List.Chain' (fun a b => a.timestamp + cfg.cooldownPeriod ≤ b.timestamp)
      (st.scalingHistory ++ [e])
    ∧ ∀ e2 ∈ st.scalingHistory ++ [e], e2.timestamp ≤ now := by
  have hnow : st.lastScaleAction + cfg.cooldownPeriod ≤ now := by omega
  constructor
  · rw [List.chain'_append]
    refine ⟨h.1, List.chain'_singleton e, ?_⟩
    intro x hx y hy
    simp only [List.head?_cons, Option.mem_def, Option.some.injEq] at hy
    subst hy
    have hxmem : x ∈ st.scalingHistory := List.mem_of_mem_getLast? hx
    have := h.2 x hxmem
    omega
  · intro e2 he2
    rcases List.mem_append.mp he2 with hin | hin
    · exact le_trans (h.2 e2 hin) (by omega)
    · simp only [List.mem_singleton] at hin
      subst hin
      omega

theorem scaleUp_histOK (cfg : ScalingConfig) (st : OrchState) (now targetLoad : Nat)
    (hcd : 0 < cfg.cooldownPeriod) (h : histOK cfg st) :
    histOK cfg (scaleUp cfg st now targetLoad) := by
  unfold scaleUp
  by_cases h1 : now - st.lastScaleAction < cfg.cooldownPeriod
  · rw [if_pos h1]; exact h
  · rw [if_neg h1]
    by_cases h2 : instancesToAdd cfg st targetLoad ≤ 0
    · rw [if_pos h2]; exact h
    · rw [if_neg h2]
      exact histOK_extend cfg st now _ hcd h h1 rfl

theorem scaleDown_histOK (cfg : ScalingConfig) (st : OrchState) (now : Nat)
    (hcd : 0 < cfg.cooldownPeriod) (h : histOK cfg st) :
    histOK cfg (scaleDown cfg st now) := by
  unfold scaleDown
  by_cases h1 : now - st.lastScaleAction < cfg.cooldownPeriod
  · rw [if_pos h1]; exact h
  · rw [if_neg h1]
    split
    · exact histOK_extend cfg st now _ hcd h h1 rfl
    · split
      · exact h
      · exact histOK_extend cfg st now _ hcd h h1 rfl

theorem runScaling_histOK (cfg : ScalingConfig) (hcd : 0 < cfg.cooldownPeriod) :
    ∀ (reqs : List ScaleReq) (st : OrchState), histOK cfg st →
      histOK cfg (runScaling cfg st reqs) := by
  intro reqs
  induction reqs with
  | nil => intro st h; exact h
  | cons r rest ih =>
    intro st h
    cases r with
    | up n l => exact ih _ (scaleUp_histOK cfg st n l hcd h)
    | down n => exact ih _ (scaleDown_histOK cfg st n hcd h)

/-- C3: both scaleUp and scaleDown return with the state entirely
unchanged when invoked within cooldownPeriod of the shared lastScaleAction
timestamp, and along any sequence of scale requests started from a state
with an empty scaling log, any two consecutive completed scaling actions
(of either direction, the cooldown timestamp being shared) are at least
one cooldownPeriod apart, so each cooldown window holds at most one
completed action. -/
theorem scaling_cooldown_shared (cfg : ScalingConfig) (st st0 : OrchState)
    (now targetLoad : Nat) (reqs : List ScaleReq)
    (hcd : 0 < cfg.cooldownPeriod)
    (hlt : now - st.lastScaleAction < cfg.cooldownPeriod)
    (h0 : st0.scalingHistory = []) :
    scaleUp cfg st now targetLoad = st
    ∧ scaleDown cfg st now = st
    ∧ List.Chain' (fun a b => a.timestamp + cfg.cooldownPeriod ≤ b.timestamp)
        (runScaling cfg st0 reqs).scalingHistory := by
  refine ⟨scaleUp_cooldown_noop cfg st now targetLoad hlt,
          scaleDown_cooldown_noop cfg st now hlt, ?_⟩
  have h : histOK cfg st0 := by
    constructor
    · rw [h0]; exact List.chain'_nil
    · intro e he; rw [h0] at he; cases he
  exact (runScaling_histOK cfg hcd reqs st0 h).1

/-- A state inside the cooldown window: last action at 900000, probed at
1000000 with cooldownPeriod 300000. -/
def stCool : OrchState :=
  ⟨["i1"], [("i1", ⟨some 10, some 5, some 50, some 50, 900000⟩)], [], 0, 900000, 
   [⟨.up, 900000, 1⟩], [.launch 1]⟩

/-- Witness for C3: inside the window both calls are no-ops, and a request
run with one completed action and one suppressed follow-up keeps the log
well spaced. -/
theorem scaling_cooldown_shared_witness :
    scaleUp cfg0 stCool 1000000 500 = stCool
    ∧ scaleDown cfg0 stCool 1000000 = stCool
    ∧ List.Chain' (fun a b => a.timestamp + cfg0.cooldownPeriod ≤ b.timestamp)
        (runScaling cfg0 ⟨[], [], [], 0, 0, [], []⟩
          [.up 400000 500, .down 400001]).scalingHistory :=
  scaling_cooldown_shared cfg0 stCool ⟨[], [], [], 0, 0, [], []⟩ 1000000 500
    [.up 400000 500, .down 400001] (by decide) (by decide) rfl

end Scaling

namespace Scaling

open LiveAudio

/-- selectOptimalRegion: starting from zero listeners and the first
configured region, take each region of the distribution in turn and keep
it when it strictly beats the running maximum and is a configured
region. -/
def selectOptimalRegion (regions : List String) (dist : List (String × Nat)) : String :=
  (dist.foldl
    (fun acc rc => if acc.1 < rc.2 && regions.contains rc.1 then (rc.2, rc.1) else acc)
    (0, regions.headD "")).2

/-- addRelayNode(broadcastId, currentLoad): reads the listener region
distribution, picks the optimal region, launches a relay there (the cloud
launch is embedded as handing out the next fresh relay handle) and
registers it under the handle id.  No check against an existing relay for
the broadcast or the region is made, and the region choice never excludes
regions already covered. -/
def addRelayNode (st : OrchState) (regions : List String) (b : String)
    (dist : List (String × Nat)) (now : Nat) : RelayNode × OrchState :=
  let region := selectOptimalRegion regions dist
  let relay : RelayNode := ⟨st.nextRelayId, b, region, now, 0⟩
  (relay,
   { st with
       relayNodes := alSet st.relayNodes relay.id relay,
       nextRelayId := st.nextRelayId + 1 })

/-- The empty orchestrator state. -/
def stEmpty : OrchState := ⟨[], [], [], 0, 0, [], []⟩

def regionsW : List String := ["eu-west-1", "us-east-1"]

def distW : List (String × Nat) := [("eu-west-1", 10), ("us-east-1", 4)]

/-- C7 counterexample: two relay activations for the same broadcast under
the same listener distribution provision two RelayNodes for the identical
(broadcast, region) pair; nothing makes the second request a no-op. -/
theorem addRelayNode_duplicate_counterexample :
    ((addRelayNode (addRelayNode stEmpty regionsW "b1" distW 1000).2
        regionsW "b1" distW 2000).2.relayNodes.filter
      (fun p => p.2.broadcastId == "b1" && p.2.region == "eu-west-1")).length = 2 := by
  decide

/-- C7 (amended): every addRelayNode call unconditionally provisions
exactly one new RelayNode for the broadcast, placed in the region of
largest listener concentration among the configured regions; the choice
and the registration ignore existing relay coverage entirely, so repeated
activation for a covered (broadcast, region) pair provisions again rather
than provisioning nothing. -/
theorem addRelayNode_always_provisions (st : OrchState) (regions : List String) (b : String)
    (dist : List (String × Nat)) (now : Nat)
    (hfresh : alGet st.relayNodes st.nextRelayId = none) :
    (addRelayNode st regions b dist now).2.relayNodes
      = st.relayNodes
          ++ [(st.nextRelayId, ⟨st.nextRelayId, b, selectOptimalRegion regions dist, now, 0⟩)]
    ∧ (addRelayNode st regions b dist now).1.region = selectOptimalRegion regions dist
    ∧ (addRelayNode st regions b dist now).1.broadcastId = b := by
  refine ⟨?_, rfl, rfl⟩
  exact alSet_of_get_none st.relayNodes st.nextRelayId _ hfresh

/-- Witness for the C7 amended theorem on the empty state. -/
theorem addRelayNode_always_provisions_witness :
    (addRelayNode stEmpty regionsW "b1" distW 1000).2.relayNodes
      = [(0, ⟨0, "b1", selectOptimalRegion regionsW distW, 1000, 0⟩)] :=
  (addRelayNode_always_provisions stEmpty regionsW "b1" distW 1000 rfl).1

/-- Sum of listenerCount over the stored snapshots with the JS (value or
zero) default of the aggregation tick. -/
def sumListeners (metrics : List (String × Snapshot)) : Nat :=
  metrics.foldl (fun s m => s + m.2.listenerCount.getD 0) 0

def sumBandwidth (metrics : List (String × Snapshot)) : Nat :=
  metrics.foldl (fun s m => s + m.2.bandwidth.getD 0) 0

def sumCpu (metrics : List (String × Snapshot)) : Nat :=
  metrics.foldl (fun s m => s + m.2.cpu.getD 0) 0

def sumMemory (metrics : List (String × Snapshot)) : Nat :=
  metrics.foldl (fun s m => s + m.2.memory.getD 0) 0

/-- The aggregate published by one startMetricsCollection tick. -/
structure Aggregated where
  totalInstances : Nat
  totalRelays : Nat
  totalListeners : Nat
  totalBandwidth : Nat
  averageCPU : Rat
  averageMemory : Rat
deriving DecidableEq, Repr

/-- One startMetricsCollection tick: totals and sums walk every snapshot
currently stored in this.metrics (each missing field counting zero), and
the averages divide by the store size only behind the size > 0 guard,
staying zero otherwise.  No timestamp is consulted anywhere. -/
def aggregateMetrics (instCount relayCount : Nat) (metrics : List (String × Snapshot)) :
    Aggregated :=
  { totalInstances := instCount
    totalRelays := relayCount
    totalListeners := sumListeners metrics
    totalBandwidth := sumBandwidth metrics
    averageCPU :=
      if 0 < metrics.length then (sumCpu metrics : Rat) / (metrics.length : Rat) else 0
    averageMemory :=
      if 0 < metrics.length then (sumMemory metrics : Rat) / (metrics.length : Rat) else 0 }

/-- Modelled from the spec: the aggregation the specification describes,
in which snapshots whose timestamp lies outside the staleness window are
excluded from the aggregate before the totals and averages are computed.
No such window exists in the ScalingOrchestrator source; this definition
exists only to be compared with aggregateMetrics. -/
def aggregateMetricsSpec (now window instCount relayCount : Nat)
    (metrics : List (String × Snapshot)) : Aggregated :=
  aggregateMetrics instCount relayCount
    (metrics.filter (fun m => now - m.2.timestamp ≤ window))

/-- A store holding one snapshot taken at time 0, read at time 10^9 with a
60 s staleness window: older than the window by any measure. -/
def mStale : List (String × Snapshot) := [("i1", ⟨some 42, some 7, some 50, some 60, 0⟩)]

/-- C6 counterexample: the tick aggregate counts the stale snapshot (42
listeners) exactly as a fresh one; the spec-modelled aggregation excludes
it, so the two disagree at this input and no snapshot is ever excluded
for staleness. -/
theorem aggregate_includes_stale_counterexample :
    (aggregateMetrics 1 0 mStale).totalListeners = 42
    ∧ (aggregateMetricsSpec 1000000000 60000 1 0 mStale).totalListeners = 0
    ∧ (aggregateMetrics 1 0 mStale).totalListeners
        ≠ (aggregateMetricsSpec 1000000000 60000 1 0 mStale).totalListeners := by
  refine ⟨rfl, rfl, ?_⟩
  decide

/-- C6 (amended): the aggregation tick recomputes the fleet totals and
averages from every snapshot currently stored, with no staleness
exclusion: the result is invariant under arbitrary rewriting of every
snapshot timestamp, so a snapshot of any age contributes exactly as a
fresh one. -/
theorem aggregateMetrics_ignores_timestamps (instCount relayCount : Nat)
    (metrics : List (String × Snapshot)) (f : String → Nat) :
    aggregateMetrics instCount relayCount
      (metrics.map (fun p => (p.1, { p.2 with timestamp := f p.1 })))
      = aggregateMetrics instCount relayCount metrics := by
  simp only [aggregateMetrics, sumListeners, sumBandwidth, sumCpu, sumMemory,
    List.foldl_map, List.length_map]

/-- C10: the per-tick aggregate is arithmetically safe: with an empty
metrics store both averages are zero (the division is guarded by the
size test), with a nonempty store each average times the store size gives
back the corresponding sum (the division is by a provably nonzero
denominator), and a snapshot missing any of the listenerCount, bandwidth,
cpu or memory fields contributes zero to the corresponding sum. -/
theorem aggregation_division_guarded (instCount relayCount : Nat)
    (metrics : List (String × Snapshot)) :
    (metrics.length = 0 →
      (aggregateMetrics instCount relayCount metrics).averageCPU = 0
      ∧ (aggregateMetrics instCount relayCount metrics).averageMemory = 0)
    ∧ (0 < metrics.length →
      (aggregateMetrics instCount relayCount metrics).averageCPU * (metrics.length : Rat)
          = (sumCpu metrics : Rat)
      ∧ (aggregateMetrics instCount relayCount metrics).averageMemory * (metrics.length : Rat)
          = (sumMemory metrics : Rat))
    ∧ (∀ (iid : String) (ts : Nat) (rest : List (String × Snapshot)),
      sumListeners ((iid, ⟨none, none, none, none, ts⟩) :: rest) = sumListeners rest
      ∧ sumBandwidth ((iid, ⟨none, none, none, none, ts⟩) :: rest) = sumBandwidth rest
      ∧ sumCpu ((iid, ⟨none, none, none, none, ts⟩) :: rest) = sumCpu rest
      ∧ sumMemory ((iid, ⟨none, none, none, none, ts⟩) :: rest) = sumMemory rest) := by
  refine ⟨?_, ?_, ?_⟩
  · intro h0
    simp [aggregateMetrics, h0]
  · intro hpos
    have hne : (metrics.length : Rat) ≠ 0 := by
      exact_mod_cast Nat.pos_iff_ne_zero.mp hpos
    constructor
    · simp only [aggregateMetrics, if_pos hpos]
      exact div_mul_cancel₀ _ hne
    · simp only [aggregateMetrics, if_pos hpos]
      exact div_mul_cancel₀ _ hne
  · intro iid ts rest
    exact ⟨rfl, rfl, rfl, rfl⟩

/-- Witness for C10 on the empty store and on a one-snapshot store. -/
theorem aggregation_division_guarded_witness :
    ((aggregateMetrics 2 1 []).averageCPU = 0 ∧ (aggregateMetrics 2 1 []).averageMemory = 0)
    ∧ (aggregateMetrics 1 0 mStale).averageCPU * ((mStale.length : Nat) : Rat)
        = (sumCpu mStale : Rat) :=
  ⟨(aggregation_division_guarded 2 1 []).1 rfl,
   ((aggregation_division_guarded 1 0 mStale).2.1 (by decide)).1⟩

end Scaling
